import Mathlib

/-!
Verification of `src/ccrec/models/bert_mt.py` (multi-task BERT recommendation
trainer).  The Python module defines:

* `_BertMT` — the joint model: a pairwise-ranking objective (`_BertBPR` base)
  plus a VAE item tower, blended into one scalar loss.
* `_DataMT` — the data module combining ranking triplet batches with content
  (item-text) batches via a `max_size_cycle` combined loader, storing the
  `ct_cycles`/`ft_cycles` normalization constants.
* `BertMT` — the training orchestrator (tokenizes the catalog once, builds a
  fresh `_BertMT` and `_DataMT` per `fit`, delegates to a Lightning `Trainer`,
  manages checkpoints).
* `bmt_main` — the end-to-end pipeline.

The shallow embedding below represents tensors of per-sample losses as
`List ℚ`, Python floats as `ℚ`, and the external collaborators (base ranking
step, item tower, tokenizer, Lightning trainer, filesystem) as function
parameters.  Side effects of `fit` and `bmt_main` are recorded in explicit
effect traces.
-/

namespace BertMt

/-- A fixed-shape tokenized input batch, as returned by the Hugging Face
tokenizer call in `BertMT.__init__`
(`self.all_inputs = self.tokenizer(self.item_titles.tolist(), ...)`). -/
structure TokenizedBatch where
  input_ids : List (List ℕ)
  attention_mask : List (List ℕ)
deriving DecidableEq

/-- A ranking triplet batch `ijw` (user index, item index, weight), the first
component of the combined batch in `_BertMT.training_and_validation_step`. -/
structure IJW where
  i : List ℕ
  j : List ℕ
  w : List ℚ
deriving DecidableEq

/-- `tensor.mean()` on a 1-d tensor of per-sample losses. -/
def tensorMean (xs : List ℚ) : ℚ := xs.sum / xs.length

/-- Python `max(a, b)`: returns `b` when `a <= b`, else `a` (agrees with
`max` on `ℚ`; kept as an `if` so the kernel can evaluate it). -/
def pyMax (a b : ℚ) : ℚ := if a ≤ b then b else a

/-- Python `int(x)`: truncation toward zero (the rational's denominator is
positive, so this is truncating division of numerator by denominator). -/
def pyInt (q : ℚ) : ℤ := Int.tdiv q.num (q.den : ℤ)

/-- One model parameter, of which only the `requires_grad` flag is relevant
to `BertMT.fit`'s no-op check. -/
structure Param where
  requiresGrad : Bool
deriving DecidableEq

/-- The keyword arguments forwarded from `BertMT.__init__` to each fresh
`_BertMT(self.all_inputs, **self._model_kw)` call: the blend weight `alpha`,
the negative-sampling breadths, and (abstractly) the parameters the freshly
constructed model starts from (pretrained checkpoint weights). -/
structure ModelKw where
  alpha : ℚ
  n_negatives : ℕ
  valid_n_negatives : Option ℕ
  initParams : List Param
deriving DecidableEq

/-- `_BertMT.__init__` (lines 27-28):
`if valid_n_negatives is None: valid_n_negatives = n_negatives`. -/
def resolve_valid_n_negatives (n_negatives : ℕ) (valid_n_negatives : Option ℕ) : ℕ :=
  match valid_n_negatives with
  | none => n_negatives
  | some v => v

/-- The state of a `_BertMT` joint model relevant to the claims: the shared
tokenized catalog batch (`self.all_inputs`), the blend weight (`self.alpha`),
the resolved negative-sampling breadths, the parameter list, and the cycle
constants, which are absent (`none`) until `set_training_data` stores them. -/
structure JointModel where
  allInputs : TokenizedBatch
  alpha : ℚ
  n_negatives : ℕ
  valid_n_negatives : ℕ
  params : List Param
  ct_cycles : Option ℚ
  ft_cycles : Option ℚ
deriving DecidableEq

/-- `_BertMT.__init__` (lines 17-46): stores `all_inputs` and `alpha`,
resolves `valid_n_negatives`, and initializes parameters from the pretrained
content model plus the ranking base (abstracted as `kw.initParams`).  The
cycle constants are not set at construction. -/
def mkBertMT (all_inputs : TokenizedBatch) (kw : ModelKw) : JointModel :=
  { allInputs := all_inputs
    alpha := kw.alpha
    n_negatives := kw.n_negatives
    valid_n_negatives := resolve_valid_n_negatives kw.n_negatives kw.valid_n_negatives
    params := kw.initParams
    ct_cycles := none
    ft_cycles := none }

/-- `_BertMT.set_training_data` (lines 48-51): stores the cycle constants. -/
def set_training_data (m : JointModel) (ct ft : ℚ) : JointModel :=
  { m with ct_cycles := some ct, ft_cycles := some ft }

/-- `_BertMT.training_and_validation_step` (lines 53-58):
```
ijw, inputs = batch
ft_loss = super().training_and_validation_step(ijw, batch_idx)
ct_loss = self.item_tower(**inputs, output_step='dict')[0]
return (1 - self.alpha) / self.ct_cycles * ct_loss.mean() + \
       self.alpha / self.ft_cycles * ft_loss.mean()
```
The base ranking step (`_BertBPR`, external) and the item tower's loss
(external) are passed as functions returning per-sample loss tensors.
Reading `self.ct_cycles` / `self.ft_cycles` before `set_training_data` has
run would raise `AttributeError` in Python; this is modelled by the
`Option` bind returning `none`. -/
def training_and_validation_step (m : JointModel)
    (ftStep : IJW → ℕ → List ℚ) (itemTowerLoss : TokenizedBatch → List ℚ)
    (batch : IJW × TokenizedBatch) (batch_idx : ℕ) : Option ℚ := do
  let ft_loss := ftStep batch.1 batch_idx
  let ct_loss := itemTowerLoss batch.2
  let cc ← m.ct_cycles
  let fc ← m.ft_cycles
  pure ((1 - m.alpha) / cc * tensorMean ct_loss + m.alpha / fc * tensorMean ft_loss)

/-- The two cycle constants stored in `self.training_data` by
`_DataMT.__init__`. -/
structure TrainingData where
  ct_cycles : ℚ
  ft_cycles : ℚ
deriving DecidableEq

/-- `_DataMT.__init__` (lines 74-77):
```
self.training_data.update({
    'ct_cycles': max(1, self._num_batches / self._ct._num_batches),
    'ft_cycles': max(1, self._ct._num_batches / self._num_batches),
})
```
`self._num_batches` is the ranking (fine-tuning) side's batch count and
`self._ct._num_batches` the content side's; Python `/` is true division,
modelled on `ℚ`. -/
def DataMT_training_data (ft_num_batches ct_num_batches : ℕ) : TrainingData :=
  { ct_cycles := pyMax 1 ((ft_num_batches : ℚ) / (ct_num_batches : ℚ))
    ft_cycles := pyMax 1 ((ct_num_batches : ℚ) / (ft_num_batches : ℚ)) }

/-- `BertMT.__init__` (lines 101-102):
`if do_validation is None: do_validation = max_epochs > 1`. -/
def resolve_do_validation (do_validation : Option Bool) (max_epochs : ℤ) : Bool :=
  match do_validation with
  | none => decide (1 < max_epochs)
  | some b => b

/-- The side effects performed by `BertMT.__init__` and `BertMT.fit`,
recorded as an explicit trace.  `trainerFit` carries the `max_epochs` and
`max_steps` arguments handed to the Lightning `Trainer`; `loadBestCheckpoint`
is `model._load_best_checkpoint("best")`; `loadStateDict` would be a call of
`model.load_state_dict(...)` with the given strictness (the source's `fit`
never performs one — the fallback only prints the command). -/
inductive Effect where
  | tokenize
  | buildDataModule
  | trainerFit (max_epochs : ℤ) (max_steps : ℤ)
  | loadBestCheckpoint
  | printMsg (s : String)
  | makedirs (p : String)
  | saveStateDict (p : String)
  | loadStateDict (p : String) (strict : Bool)
  | logText (tag : String) (text : String) (step : ℕ)
deriving DecidableEq

/-- The `BertMT` orchestrator state (lines 95-134): the tokenized catalog
(`self.all_inputs`), the resolved `do_validation` flag, epoch/step limits,
batch sizes, the stored `self._model_kw`, the live model, and the
append-only checkpoint-path history `self._ckpt_dirpath`. -/
structure Orchestrator where
  allInputs : TokenizedBatch
  do_validation : Bool
  max_epochs : ℤ
  max_steps : ℤ
  batch_size : ℕ
  valid_batch_size : ℕ
  vae_batch_size : ℕ
  modelKw : ModelKw
  model : JointModel
  ckpt_dirpath : List String

/-- `BertMT.__init__` (lines 96-130): resolves `do_validation`, tokenizes the
full item catalog exactly once into `self.all_inputs` (the single `tokenize`
effect), constructs the initial `_BertMT` model from that shared batch,
derives `valid_batch_size = batch_size * n_negatives * 2 // valid_n_negatives`
and `vae_batch_size = 6 * batch_size`, and starts an empty checkpoint
history.  The tokenizer collaborator is the function argument `tok`. -/
def BertMT_init (item_titles : List String) (tok : List String → TokenizedBatch)
    (batch_size : ℕ) (max_epochs max_steps : ℤ) (do_validation : Option Bool)
    (kw : ModelKw) : Orchestrator × List Effect :=
  let dv := resolve_do_validation do_validation max_epochs
  let all_inputs := tok item_titles
  let model := mkBertMT all_inputs kw
  ({ allInputs := all_inputs
     do_validation := dv
     max_epochs := max_epochs
     max_steps := max_steps
     batch_size := batch_size
     valid_batch_size := batch_size * model.n_negatives * 2 / model.valid_n_negatives
     vae_batch_size := 6 * batch_size
     modelKw := kw
     model := model
     ckpt_dirpath := [] },
   [Effect.tokenize])

/-- The interaction dataset `V`; only `V.target_csr.nnz` matters to the
claims checked here. -/
structure Dataset where
  nnz : ℕ
deriving DecidableEq

/-- The external collaborators that `BertMT.fit` interacts with: the batch
counts the fresh `_DataMT` would report for `V` (ranking side
`_num_batches`, content side `_ct._num_batches`), the Lightning trainer
(`trainer.fit`, which updates only the parameters and may raise), the
best-checkpoint reload (`model._load_best_checkpoint("best")`, also a pure
parameter update), and the filesystem state
`os.path.exists(model._checkpoint.dirpath)` with the directory path itself. -/
structure FitEnv where
  ft_num_batches : ℕ
  ct_num_batches : ℕ
  train : List Param → ℤ → ℤ → Except String (List Param)
  load_best : List Param → List Param
  ckpt_dirpath : String
  ckpt_dir_exists : Bool

/-- The result of `BertMT.fit`: the (possibly updated) orchestrator, the
trace of effects performed, and the uncaught exception when one is raised
by the delegated training run (in which case `self` is unchanged: the
source only rebinds `self.model` after everything succeeded). -/
structure FitResult where
  state : Orchestrator
  trace : List Effect
  error : Option String

/-- `BertMT.fit` (lines 136-162):
```
if V is None or not any([param.requires_grad for param in self.model.parameters()]):
    return self
model = _BertMT(self.all_inputs, **self._model_kw)
dm = self._get_data_module(V)
model.set_training_data(**dm.training_data)
max_epochs = int(max(5, self.max_epochs / dm.training_data['ct_cycles']))
trainer = Trainer(max_epochs=max_epochs, max_steps=self.max_steps, ...)
trainer.fit(model, datamodule=dm)
model._load_best_checkpoint("best")
if not os.path.exists(model._checkpoint.dirpath):  # add manual checkpoint
    print('model.load_state_dict(torch.load(...), strict=False)')
    print(f'{model._checkpoint.dirpath}/state-dict.pth')
    os.makedirs(model._checkpoint.dirpath)
    torch.save(model.state_dict(), model._checkpoint.dirpath + '/state-dict.pth')
self._logger.experiment.add_text("ckpt", model._checkpoint.dirpath, len(self._ckpt_dirpath))
self._ckpt_dirpath.append(model._checkpoint.dirpath)
self.model = model
return self
``` -/
def fit (o : Orchestrator) (V : Option Dataset) (env : FitEnv) : FitResult :=
  if V = none ∨ o.model.params.any (fun p => p.requiresGrad) = false then
    { state := o, trace := [], error := none }
  else
    let model0 := mkBertMT o.allInputs o.modelKw
    let td := DataMT_training_data env.ft_num_batches env.ct_num_batches
    let model1 := set_training_data model0 td.ct_cycles td.ft_cycles
    let max_epochs := pyInt (pyMax 5 ((o.max_epochs : ℚ) / td.ct_cycles))
    match env.train model1.params max_epochs o.max_steps with
    | Except.error e =>
      { state := o
        trace := [Effect.buildDataModule, Effect.trainerFit max_epochs o.max_steps]
        error := some e }
    | Except.ok trained =>
      let model2 := { model1 with params := env.load_best trained }
      let fallback :=
        if env.ckpt_dir_exists then []
        else [Effect.printMsg "model.load_state_dict(torch.load(...), strict=False)",
              Effect.printMsg (env.ckpt_dirpath ++ "/state-dict.pth"),
              Effect.makedirs env.ckpt_dirpath,
              Effect.saveStateDict (env.ckpt_dirpath ++ "/state-dict.pth")]
      { state := { o with model := model2
                          ckpt_dirpath := o.ckpt_dirpath ++ [env.ckpt_dirpath] }
        trace := [Effect.buildDataModule, Effect.trainerFit max_epochs o.max_steps,
                  Effect.loadBestCheckpoint] ++ fallback ++
                 [Effect.logText "ckpt" env.ckpt_dirpath o.ckpt_dirpath.length]
        error := none }

/-- The stages of the `bmt_main` end-to-end pipeline (lines 165-201). -/
inductive PipeEffect where
  | createZeroShot
  | parseResponse
  | buildDataset
  | buildOrchestrator
  | fitCall
  | evalMetrics
deriving DecidableEq

/-- The result of `bmt_main`: the effect trace up to completion or up to the
uncaught exception. -/
structure PipeResult where
  trace : List PipeEffect
  error : Option String

/-- `bmt_main` (lines 165-201): builds the zero-shot environment, parses the
explanation responses, constructs the interaction dataset `V`
(all external; `V` is the function's parameter here), then runs
`assert V.target_csr.nnz > 0` (line 182) before constructing the `BertMT`
orchestrator (line 184), calling `bmt.fit(V)` (line 191), and evaluating
the reranking metrics. -/
def bmt_main (V : Dataset) : PipeResult :=
  let pre := [PipeEffect.createZeroShot, PipeEffect.parseResponse, PipeEffect.buildDataset]
  if 0 < V.nnz then
    { trace := pre ++ [PipeEffect.buildOrchestrator, PipeEffect.fitCall, PipeEffect.evalMetrics]
      error := none }
  else
    { trace := pre, error := some "AssertionError: V.target_csr.nnz > 0" }

/-! ### Concrete fixtures used by witnesses and counterexamples -/

/-- A concrete tokenized batch. -/
def exInputs : TokenizedBatch := { input_ids := [[1, 2]], attention_mask := [[1, 1]] }

/-- A concrete ranking triplet batch. -/
def exIJW : IJW := { i := [0], j := [1], w := [1] }

/-- Concrete model keyword arguments (the `bert_mt.py` defaults
`alpha=0.05`, `n_negatives=10`, `valid_n_negatives=None`) with one
trainable parameter. -/
def exKw : ModelKw :=
  { alpha := 1/20, n_negatives := 10, valid_n_negatives := none
    initParams := [{ requiresGrad := true }] }

/-- A concrete orchestrator: `BertMT(item_df)` defaults
(`batch_size=10`, `max_epochs=10`, `max_steps=-1`, `do_validation=None`). -/
def exOrch : Orchestrator :=
  (BertMT_init ["apple"] (fun _ => exInputs) 10 10 (-1) none exKw).1

/-- A concrete fit environment: 4 ranking batches, 3 content batches, a
trainer that succeeds, and a checkpoint directory missing after training. -/
def exEnv : FitEnv :=
  { ft_num_batches := 4, ct_num_batches := 3
    train := fun ps _ _ => Except.ok ps
    load_best := fun ps => ps
    ckpt_dirpath := "checkpoints/epoch-0"
    ckpt_dir_exists := false }

/-- A concrete model with `alpha = 1`, `ct_cycles = 1`, `ft_cycles = 2`. -/
def exModelAlpha1 : JointModel :=
  set_training_data (mkBertMT exInputs { exKw with alpha := 1 }) 1 2

/-- A concrete model with `alpha = 0`, `ct_cycles = 1`, `ft_cycles = 2`. -/
def exModelAlpha0 : JointModel :=
  set_training_data (mkBertMT exInputs { exKw with alpha := 0 }) 1 2

/-- Recognizes a `model.load_state_dict(...)` call in an effect trace. -/
def isLoadStateDict : Effect → Bool
  | Effect.loadStateDict _ _ => true
  | _ => false

/-! ### General lemmas about the embedding -/

theorem pyMax_eq_max (a b : ℚ) : pyMax a b = max a b := by
  rw [pyMax, max_def]

/-- The no-op guard of `fit`: when `V is None` or no parameter requires
gradients, `fit` returns `self` untouched with an empty effect trace. -/
theorem fit_guard_eq (o : Orchestrator) (V : Option Dataset) (env : FitEnv)
    (h : V = none ∨ o.model.params.any (fun p => p.requiresGrad) = false) :
    fit o V env = { state := o, trace := [], error := none } := by
  unfold fit
  rw [if_pos h]

/-- `fit` when the guard passes and the delegated training run raises. -/
theorem fit_err_eq (o : Orchestrator) (v : Dataset) (env : FitEnv) (e : String)
    (hgrad : o.model.params.any (fun p => p.requiresGrad) = true)
    (htr : env.train o.modelKw.initParams
        (pyInt (pyMax 5 ((o.max_epochs : ℚ) /
          (DataMT_training_data env.ft_num_batches env.ct_num_batches).ct_cycles)))
        o.max_steps = Except.error e) :
    fit o (some v) env =
      { state := o
        trace := [Effect.buildDataModule,
                  Effect.trainerFit (pyInt (pyMax 5 ((o.max_epochs : ℚ) /
                    (DataMT_training_data env.ft_num_batches env.ct_num_batches).ct_cycles)))
                    o.max_steps]
        error := some e } := by
  unfold fit
  rw [if_neg (by simp [hgrad])]
  dsimp only [set_training_data, mkBertMT]
  rw [htr]

/-- `fit` when the guard passes and the delegated training run succeeds. -/
theorem fit_ok_eq (o : Orchestrator) (v : Dataset) (env : FitEnv) (ps : List Param)
    (hgrad : o.model.params.any (fun p => p.requiresGrad) = true)
    (htr : env.train o.modelKw.initParams
        (pyInt (pyMax 5 ((o.max_epochs : ℚ) /
          (DataMT_training_data env.ft_num_batches env.ct_num_batches).ct_cycles)))
        o.max_steps = Except.ok ps) :
    fit o (some v) env =
      { state := { o with
          model := { set_training_data (mkBertMT o.allInputs o.modelKw)
              (DataMT_training_data env.ft_num_batches env.ct_num_batches).ct_cycles
              (DataMT_training_data env.ft_num_batches env.ct_num_batches).ft_cycles
            with params := env.load_best ps }
          ckpt_dirpath := o.ckpt_dirpath ++ [env.ckpt_dirpath] }
        trace := [Effect.buildDataModule,
                  Effect.trainerFit (pyInt (pyMax 5 ((o.max_epochs : ℚ) /
                    (DataMT_training_data env.ft_num_batches env.ct_num_batches).ct_cycles)))
                    o.max_steps,
                  Effect.loadBestCheckpoint] ++
                 (if env.ckpt_dir_exists then []
                  else [Effect.printMsg "model.load_state_dict(torch.load(...), strict=False)",
                        Effect.printMsg (env.ckpt_dirpath ++ "/state-dict.pth"),
                        Effect.makedirs env.ckpt_dirpath,
                        Effect.saveStateDict (env.ckpt_dirpath ++ "/state-dict.pth")]) ++
                 [Effect.logText "ckpt" env.ckpt_dirpath o.ckpt_dirpath.length]
        error := none } := by
  unfold fit
  rw [if_neg (by simp [hgrad])]
  dsimp only [set_training_data, mkBertMT]
  rw [htr]

/-- The cycle constant of the concrete fixture environment. -/
theorem exEnv_ct_cycles :
    (DataMT_training_data exEnv.ft_num_batches exEnv.ct_num_batches).ct_cycles = 4 / 3 := by
  show (DataMT_training_data 4 3).ct_cycles = 4 / 3
  norm_num [DataMT_training_data, pyMax]

/-- The epoch limit computed by `fit` on the concrete fixtures:
`int(max(5, 10 / (4/3))) = int(7.5) = 7`. -/
theorem exOrch_epochs :
    pyInt (pyMax 5 ((exOrch.max_epochs : ℚ) /
      (DataMT_training_data exEnv.ft_num_batches exEnv.ct_num_batches).ct_cycles)) = 7 := by
  rw [exEnv_ct_cycles]
  have h2 : ((exOrch.max_epochs : ℚ)) / ((4 : ℚ) / 3) = 15 / 2 := by
    show ((10 : ℤ) : ℚ) / ((4 : ℚ) / 3) = 15 / 2
    norm_num
  rw [h2, pyMax, if_pos (by norm_num : (5 : ℚ) ≤ 15 / 2), pyInt]
  norm_num
  decide

/-- The full effect trace of `fit` on the concrete fixtures. -/
theorem fit_exOrch_trace (d : Dataset) :
    (fit exOrch (some d) exEnv).trace =
      [Effect.buildDataModule, Effect.trainerFit 7 (-1), Effect.loadBestCheckpoint,
       Effect.printMsg "model.load_state_dict(torch.load(...), strict=False)",
       Effect.printMsg "checkpoints/epoch-0/state-dict.pth",
       Effect.makedirs "checkpoints/epoch-0",
       Effect.saveStateDict "checkpoints/epoch-0/state-dict.pth",
       Effect.logText "ckpt" "checkpoints/epoch-0" 0] ∧
    (fit exOrch (some d) exEnv).error = none := by
  rw [fit_ok_eq exOrch d exEnv [{ requiresGrad := true }] (by decide) rfl]
  refine ⟨?_, rfl⟩
  rw [exOrch_epochs]
  rfl

/-! ### Claim C2 — cycle-constant invariants at `_DataMT` construction -/

/-- **C2.** At `_DataMT` construction, for ranking-side batch count `m ≥ 1`
and content-side batch count `n ≥ 1`, the stored constants are
`ct_cycles = max(1, m/n)` and `ft_cycles = max(1, n/m)`; each is `≥ 1`, both
equal `1` when `m = n`, and exactly one of the pair equals `1` when
`m ≠ n`. -/
theorem DataMT_cycles_spec (m n : ℕ) (hm : 1 ≤ m) (hn : 1 ≤ n) :
    (DataMT_training_data m n).ct_cycles = max 1 ((m : ℚ) / n) ∧
    (DataMT_training_data m n).ft_cycles = max 1 ((n : ℚ) / m) ∧
    1 ≤ (DataMT_training_data m n).ct_cycles ∧
    1 ≤ (DataMT_training_data m n).ft_cycles ∧
    (m = n →
      (DataMT_training_data m n).ct_cycles = 1 ∧
      (DataMT_training_data m n).ft_cycles = 1) ∧
    (m ≠ n →
      ((DataMT_training_data m n).ct_cycles = 1 ∧
        (DataMT_training_data m n).ft_cycles ≠ 1) ∨
      ((DataMT_training_data m n).ct_cycles ≠ 1 ∧
        (DataMT_training_data m n).ft_cycles = 1)) := by
  have hm0 : (0 : ℚ) < (m : ℚ) := by exact_mod_cast hm
  have hn0 : (0 : ℚ) < (n : ℚ) := by exact_mod_cast hn
  simp only [DataMT_training_data, pyMax_eq_max]
  refine ⟨by trivial, by trivial, le_max_left _ _, le_max_left _ _, ?_, ?_⟩
  · rintro rfl
    rw [div_self (ne_of_gt hm0), max_self]
    constructor <;> trivial
  · intro hne
    rcases lt_or_gt_of_ne hne with hlt | hlt
    · left
      have h1 : (m : ℚ) / n < 1 := (div_lt_one hn0).mpr (by exact_mod_cast hlt)
      have h2 : 1 < (n : ℚ) / m := (one_lt_div hm0).mpr (by exact_mod_cast hlt)
      exact ⟨max_eq_left (le_of_lt h1), by rw [max_eq_right (le_of_lt h2)]; exact ne_of_gt h2⟩
    · right
      have h1 : (n : ℚ) / m < 1 := (div_lt_one hm0).mpr (by exact_mod_cast hlt)
      have h2 : 1 < (m : ℚ) / n := (one_lt_div hn0).mpr (by exact_mod_cast hlt)
      exact ⟨by rw [max_eq_right (le_of_lt h2)]; exact ne_of_gt h2, max_eq_left (le_of_lt h1)⟩

/-- Witness for C2 at `m = 2`, `n = 3`. -/
theorem DataMT_cycles_spec_witness :
    (1 : ℕ) ≤ 2 ∧ (1 : ℕ) ≤ 3 ∧ 1 ≤ (DataMT_training_data 2 3).ct_cycles :=
  ⟨by decide, by decide, (DataMT_cycles_spec 2 3 (by decide) (by decide)).2.2.1⟩

/-! ### Claim C1 — the blended loss formula -/

/-- **C1.** For every batch pairing a ranking triplet batch with a
content-input dict, and stored constants `alpha`, `ct_cycles`, `ft_cycles`,
`_BertMT.training_and_validation_step` returns exactly
`(1 - alpha) / ct_cycles * mean(content_loss) + alpha / ft_cycles *
mean(ranking_loss)`, where `ranking_loss` is the base ranking objective's
step output on the triplet batch and `content_loss` is the item tower's
loss on the content inputs. -/
theorem step_blend_formula (m : JointModel) (ftStep : IJW → ℕ → List ℚ)
    (itemTowerLoss : TokenizedBatch → List ℚ) (ijw : IJW) (inputs : TokenizedBatch)
    (idx : ℕ) (cc fc : ℚ) (hc : m.ct_cycles = some cc) (hf : m.ft_cycles = some fc) :
    training_and_validation_step m ftStep itemTowerLoss (ijw, inputs) idx =
      some ((1 - m.alpha) / cc * tensorMean (itemTowerLoss inputs) +
            m.alpha / fc * tensorMean (ftStep ijw idx)) := by
  simp [training_and_validation_step, hc, hf]

/-- Witness for C1: a model with `ct_cycles = 1`, `ft_cycles = 1` set. -/
theorem step_blend_formula_witness :
    (set_training_data (mkBertMT exInputs exKw) 1 1).ct_cycles = some 1 ∧
    training_and_validation_step (set_training_data (mkBertMT exInputs exKw) 1 1)
        (fun _ _ => [1]) (fun _ => [3]) (exIJW, exInputs) 0 =
      some ((1 - (set_training_data (mkBertMT exInputs exKw) 1 1).alpha) / 1 *
              tensorMean [3] +
            (set_training_data (mkBertMT exInputs exKw) 1 1).alpha / 1 *
              tensorMean [1]) :=
  ⟨rfl, step_blend_formula (set_training_data (mkBertMT exInputs exKw) 1 1)
    (fun _ _ => [1]) (fun _ => [3]) exIJW exInputs 0 1 1 rfl rfl⟩

/-! ### Claim C6 — the blend at `alpha = 0` and `alpha = 1` -/

/-- **C6, counterexample.** The claim says the blended loss at `alpha = 1`
"equals the ranking loss"; with `ft_cycles = 2` and a ranking loss of mean
`1`, the blended loss is `1/2`, not the ranking-loss mean `1`: the ranking
term is also divided by its cycle constant. -/
theorem step_alpha1_counterexample :
    training_and_validation_step exModelAlpha1
        (fun _ _ => [1]) (fun _ => [3]) (exIJW, exInputs) 0 = some (1 / 2) ∧
    tensorMean [(1 : ℚ)] = 1 ∧ ((1 : ℚ) / 2) ≠ 1 := by
  refine ⟨?_, ?_, by norm_num⟩
  · norm_num [training_and_validation_step, exModelAlpha1, set_training_data, mkBertMT,
      exKw, tensorMean]
  · simp [tensorMean]

/-- **C6, amended.** At `alpha = 0` the blended loss equals the
cycle-normalized content loss `mean(content_loss) / ct_cycles` only (no
ranking contribution), and at `alpha = 1` it equals the cycle-normalized
ranking loss `mean(ranking_loss) / ft_cycles` only (no content
contribution). -/
theorem step_alpha_extremes (m : JointModel) (ftStep : IJW → ℕ → List ℚ)
    (itemTowerLoss : TokenizedBatch → List ℚ) (ijw : IJW) (inputs : TokenizedBatch)
    (idx : ℕ) (cc fc : ℚ) (hc : m.ct_cycles = some cc) (hf : m.ft_cycles = some fc) :
    (m.alpha = 0 →
      training_and_validation_step m ftStep itemTowerLoss (ijw, inputs) idx =
        some (tensorMean (itemTowerLoss inputs) / cc)) ∧
    (m.alpha = 1 →
      training_and_validation_step m ftStep itemTowerLoss (ijw, inputs) idx =
        some (tensorMean (ftStep ijw idx) / fc)) := by
  refine ⟨fun ha => ?_, fun ha => ?_⟩ <;>
    simp [training_and_validation_step, hc, hf, ha, div_eq_mul_inv, mul_comm]

/-- Witness for C6 at `alpha = 0` (and, via the counterexample model, the
hypotheses are also exercised at `alpha = 1`). -/
theorem step_alpha_extremes_witness :
    exModelAlpha0.alpha = 0 ∧
    training_and_validation_step exModelAlpha0
        (fun _ _ => [1]) (fun _ => [3]) (exIJW, exInputs) 0 =
      some (tensorMean [3] / 1) :=
  ⟨rfl, (step_alpha_extremes exModelAlpha0 (fun _ _ => [1]) (fun _ => [3])
    exIJW exInputs 0 1 2 rfl rfl).1 rfl⟩

/-! ### Claim C7 — `bmt_main` asserts `target_csr.nnz > 0` -/

/-- **C7.** In `bmt_main`, a constructed interaction dataset whose target
matrix has zero nonzero entries fails the assertion before the orchestrator
is constructed or any training collaborator is invoked. -/
theorem bmt_main_assert_nnz (V : Dataset) (h : V.nnz = 0) :
    (bmt_main V).error = some "AssertionError: V.target_csr.nnz > 0" ∧
    PipeEffect.buildOrchestrator ∉ (bmt_main V).trace ∧
    PipeEffect.fitCall ∉ (bmt_main V).trace := by
  simp [bmt_main, h]

/-- Witness for C7 at a dataset with `nnz = 0`. -/
theorem bmt_main_assert_nnz_witness :
    ({ nnz := 0 } : Dataset).nnz = 0 ∧
    (bmt_main { nnz := 0 }).error = some "AssertionError: V.target_csr.nnz > 0" :=
  ⟨rfl, (bmt_main_assert_nnz { nnz := 0 } rfl).1⟩

/-! ### Claim C9 — `do_validation` default -/

/-- **C9.** At `BertMT` construction, when `do_validation` is not supplied,
it is set to `True` exactly when `max_epochs > 1`; in particular a
single-epoch run disables validation by default. -/
theorem do_validation_default (item_titles : List String)
    (tok : List String → TokenizedBatch) (batch_size : ℕ) (max_epochs max_steps : ℤ)
    (kw : ModelKw) :
    ((BertMT_init item_titles tok batch_size max_epochs max_steps none kw).1.do_validation
        = true ↔ 1 < max_epochs) ∧
    (BertMT_init item_titles tok batch_size 1 max_steps none kw).1.do_validation = false := by
  constructor
  · simp [BertMT_init, resolve_do_validation]
  · simp [BertMT_init, resolve_do_validation]

/-! ### Claim C10 — `valid_n_negatives` default -/

/-- **C10.** At `_BertMT` construction, when `valid_n_negatives` is not
supplied, it is set equal to `n_negatives`, so train and validation use the
same negative-sampling breadth by default. -/
theorem valid_n_negatives_default (all_inputs : TokenizedBatch) (kw : ModelKw)
    (h : kw.valid_n_negatives = none) :
    (mkBertMT all_inputs kw).valid_n_negatives = (mkBertMT all_inputs kw).n_negatives := by
  simp [mkBertMT, resolve_valid_n_negatives, h]

/-- Witness for C10: the fixture `exKw` leaves `valid_n_negatives` unset. -/
theorem valid_n_negatives_default_witness :
    exKw.valid_n_negatives = none ∧
    (mkBertMT exInputs exKw).valid_n_negatives = (mkBertMT exInputs exKw).n_negatives :=
  ⟨rfl, valid_n_negatives_default exInputs exKw rfl⟩

/-! ### Claim C3 — `fit(None)` / frozen model is a graceful no-op -/

/-- **C3.** `BertMT.fit(None)`, and `fit(V)` when no parameter of the
current model has `requires_grad` set, return the orchestrator itself with
`self.model` unchanged; no data module is built, the training collaborator
is never invoked, and no exception is raised. -/
theorem fit_noop (o : Orchestrator) (V : Option Dataset) (env : FitEnv)
    (h : V = none ∨ ∀ p ∈ o.model.params, p.requiresGrad = false) :
    fit o V env = { state := o, trace := [], error := none } ∧
    (fit o V env).state.model = o.model ∧
    Effect.buildDataModule ∉ (fit o V env).trace ∧
    (∀ E S, Effect.trainerFit E S ∉ (fit o V env).trace) ∧
    (fit o V env).error = none := by
  have hb : V = none ∨ o.model.params.any (fun p => p.requiresGrad) = false := by
    rcases h with h | h
    · exact Or.inl h
    · right
      rw [List.any_eq_false]
      intro p hp
      simp [h p hp]
  have he := fit_guard_eq o V env hb
  exact ⟨he, by rw [he], by rw [he]; simp, fun E S => by rw [he]; simp, by rw [he]⟩

/-- Witness for C3: `fit(None)` on the concrete fixture orchestrator. -/
theorem fit_noop_witness :
    fit exOrch none exEnv = { state := exOrch, trace := [], error := none } :=
  (fit_noop exOrch none exEnv (Or.inl rfl)).1

/-! ### Claim C4 — the epoch limit handed to the trainer -/

/-- **C4, counterexample.** On the concrete fixtures (`max_epochs = 10`,
4 ranking batches, 3 content batches, so `ct_cycles = 4/3`), the epoch
limit handed to the training collaborator is `int(max(5, 10/(4/3))) =
int(7.5) = 7`, whereas the claim's un-truncated formula gives
`max(5, 10/(4/3)) = 15/2 ≠ 7`: the source applies `int(...)` truncation. -/
theorem fit_epoch_counterexample :
    (fit exOrch (some { nnz := 1 }) exEnv).trace =
      [Effect.buildDataModule, Effect.trainerFit 7 (-1), Effect.loadBestCheckpoint,
       Effect.printMsg "model.load_state_dict(torch.load(...), strict=False)",
       Effect.printMsg "checkpoints/epoch-0/state-dict.pth",
       Effect.makedirs "checkpoints/epoch-0",
       Effect.saveStateDict "checkpoints/epoch-0/state-dict.pth",
       Effect.logText "ckpt" "checkpoints/epoch-0" 0] ∧
    ((7 : ℚ) ≠ max 5 ((exOrch.max_epochs : ℚ) /
      (DataMT_training_data exEnv.ft_num_batches exEnv.ct_num_batches).ct_cycles)) := by
  refine ⟨(fit_exOrch_trace { nnz := 1 }).1, ?_⟩
  rw [exEnv_ct_cycles]
  have h2 : ((exOrch.max_epochs : ℚ)) / ((4 : ℚ) / 3) = 15 / 2 := by
    show ((10 : ℤ) : ℚ) / ((4 : ℚ) / 3) = 15 / 2
    norm_num
  rw [h2, max_eq_right (by norm_num : (5 : ℚ) ≤ 15 / 2)]
  norm_num

/-- **C4, amended.** Whenever `fit` proceeds past the no-op check, the
epoch limit handed to the training collaborator equals
`int(max(5, max_epochs / ct_cycles))` — the Python `int(...)` truncation of
the rescaled value, computed from the freshly built data module's
`ct_cycles` — and the step cap `max_steps` is passed through unrescaled;
no other trainer invocation occurs. -/
theorem fit_epoch_rescale (o : Orchestrator) (v : Dataset) (env : FitEnv)
    (hgrad : o.model.params.any (fun p => p.requiresGrad) = true) :
    Effect.trainerFit (pyInt (pyMax 5 ((o.max_epochs : ℚ) /
        (DataMT_training_data env.ft_num_batches env.ct_num_batches).ct_cycles)))
      o.max_steps ∈ (fit o (some v) env).trace ∧
    ∀ E S, Effect.trainerFit E S ∈ (fit o (some v) env).trace →
      E = pyInt (pyMax 5 ((o.max_epochs : ℚ) /
        (DataMT_training_data env.ft_num_batches env.ct_num_batches).ct_cycles)) ∧
      S = o.max_steps := by
  cases htr : env.train o.modelKw.initParams
      (pyInt (pyMax 5 ((o.max_epochs : ℚ) /
        (DataMT_training_data env.ft_num_batches env.ct_num_batches).ct_cycles)))
      o.max_steps with
  | error e =>
    rw [fit_err_eq o v env e hgrad htr]
    refine ⟨by simp, ?_⟩
    intro E S hmem
    simpa using hmem
  | ok ps =>
    rw [fit_ok_eq o v env ps hgrad htr]
    by_cases hex : env.ckpt_dir_exists <;>
      · simp only [hex]
        refine ⟨by simp, ?_⟩
        intro E S hmem
        simpa using hmem

/-- Witness for C4 on the concrete fixtures. -/
theorem fit_epoch_rescale_witness :
    exOrch.model.params.any (fun p => p.requiresGrad) = true ∧
    Effect.trainerFit (pyInt (pyMax 5 ((exOrch.max_epochs : ℚ) /
        (DataMT_training_data exEnv.ft_num_batches exEnv.ct_num_batches).ct_cycles)))
      exOrch.max_steps ∈ (fit exOrch (some { nnz := 4 }) exEnv).trace :=
  ⟨by decide, (fit_epoch_rescale exOrch { nnz := 4 } exEnv (by decide)).1⟩

/-! ### Claim C5 — the missing-checkpoint fallback -/

/-- **C5, counterexample.** On a concrete run whose checkpoint directory is
missing after training, `fit` writes `state-dict.pth` but performs no
`load_state_dict` call at all: the `strict=False` load named by the claim
exists only as printed advisory text, never as an executed operation. -/
theorem fit_fallback_counterexample :
    Effect.saveStateDict "checkpoints/epoch-0/state-dict.pth"
      ∈ (fit exOrch (some { nnz := 2 }) exEnv).trace ∧
    (fit exOrch (some { nnz := 2 }) exEnv).trace.all
      (fun e => !(isLoadStateDict e)) = true := by
  rw [(fit_exOrch_trace { nnz := 2 }).1]
  exact ⟨by simp, by decide⟩

/-- **C5, amended.** If, after the delegated training run and the
best-checkpoint load, the checkpoint directory does not exist, `fit`
prints a diagnostic (the text of a `strict=False` load command and the
target path), creates the directory, and writes the model's full parameter
state to a single file named `state-dict.pth` inside it, without raising;
the printed `strict=False` load is advisory only — the fallback performs no
`load_state_dict` call on the recovered state. -/
theorem fit_missing_ckpt_fallback (o : Orchestrator) (v : Dataset) (env : FitEnv)
    (ps : List Param)
    (hgrad : o.model.params.any (fun p => p.requiresGrad) = true)
    (htr : env.train o.modelKw.initParams
        (pyInt (pyMax 5 ((o.max_epochs : ℚ) /
          (DataMT_training_data env.ft_num_batches env.ct_num_batches).ct_cycles)))
        o.max_steps = Except.ok ps)
    (hex : env.ckpt_dir_exists = false) :
    Effect.printMsg "model.load_state_dict(torch.load(...), strict=False)"
      ∈ (fit o (some v) env).trace ∧
    Effect.makedirs env.ckpt_dirpath ∈ (fit o (some v) env).trace ∧
    Effect.saveStateDict (env.ckpt_dirpath ++ "/state-dict.pth")
      ∈ (fit o (some v) env).trace ∧
    (∀ p s, Effect.loadStateDict p s ∉ (fit o (some v) env).trace) ∧
    (fit o (some v) env).error = none := by
  rw [fit_ok_eq o v env ps hgrad htr]
  simp only [hex]
  refine ⟨by simp, by simp, by simp, ?_, by trivial⟩
  intro p s
  simp

/-- Witness for C5 on the concrete fixtures. -/
theorem fit_missing_ckpt_fallback_witness :
    exEnv.ckpt_dir_exists = false ∧
    Effect.saveStateDict (exEnv.ckpt_dirpath ++ "/state-dict.pth")
      ∈ (fit exOrch (some { nnz := 3 }) exEnv).trace :=
  ⟨rfl, (fit_missing_ckpt_fallback exOrch { nnz := 3 } exEnv
    [{ requiresGrad := true }] (by decide) rfl rfl).2.2.1⟩

/-! ### Claim C8 — the catalog is tokenized once and shared -/

/-- **C8.** The item catalog is tokenized exactly once, at `BertMT`
construction (the construction trace is exactly one `tokenize` effect, and
the initial model holds that very batch); every `_BertMT` created by a
subsequent `fit` call is passed the same `self.all_inputs` object
(`fit` performs no tokenization, preserves the orchestrator's
`all_inputs`, and the post-fit live model still holds it). -/
theorem tokenize_once_shared (item_titles : List String)
    (tok : List String → TokenizedBatch) (batch_size : ℕ) (max_epochs max_steps : ℤ)
    (dv : Option Bool) (kw : ModelKw)
    (o : Orchestrator) (V : Option Dataset) (env : FitEnv) :
    (BertMT_init item_titles tok batch_size max_epochs max_steps dv kw).2 =
      [Effect.tokenize] ∧
    (BertMT_init item_titles tok batch_size max_epochs max_steps dv kw).1.model.allInputs =
      (BertMT_init item_titles tok batch_size max_epochs max_steps dv kw).1.allInputs ∧
    Effect.tokenize ∉ (fit o V env).trace ∧
    (fit o V env).state.allInputs = o.allInputs ∧
    (o.model.allInputs = o.allInputs →
      (fit o V env).state.model.allInputs = o.allInputs) := by
  refine ⟨rfl, rfl, ?_⟩
  by_cases hg : V = none ∨ o.model.params.any (fun p => p.requiresGrad) = false
  · rw [fit_guard_eq o V env hg]
    exact ⟨by simp, rfl, fun h => h⟩
  · push_neg at hg
    obtain ⟨h1, h2⟩ := hg
    obtain ⟨v, rfl⟩ := Option.ne_none_iff_exists'.mp h1
    have hgrad : o.model.params.any (fun p => p.requiresGrad) = true :=
      Bool.ne_false_iff.mp h2
    cases htr : env.train o.modelKw.initParams
        (pyInt (pyMax 5 ((o.max_epochs : ℚ) /
          (DataMT_training_data env.ft_num_batches env.ct_num_batches).ct_cycles)))
        o.max_steps with
    | error e =>
      rw [fit_err_eq o v env e hgrad htr]
      exact ⟨by simp, rfl, fun h => h⟩
    | ok ps =>
      rw [fit_ok_eq o v env ps hgrad htr]
      refine ⟨?_, rfl, fun _ => rfl⟩
      by_cases hex : env.ckpt_dir_exists <;> simp [hex]

/-- Witness for C8 on the concrete fixtures (the implication hypothesis is
discharged at `exOrch`, whose model holds the shared batch). -/
theorem tokenize_once_shared_witness :
    (BertMT_init ["apple"] (fun _ => exInputs) 10 10 (-1) none exKw).2 =
      [Effect.tokenize] ∧
    Effect.tokenize ∉ (fit exOrch (some { nnz := 5 }) exEnv).trace ∧
    (fit exOrch (some { nnz := 5 }) exEnv).state.model.allInputs = exOrch.allInputs := by
  have h := tokenize_once_shared ["apple"] (fun _ => exInputs) 10 10 (-1) none exKw
    exOrch (some { nnz := 5 }) exEnv
  exact ⟨h.1, h.2.2.1, h.2.2.2.2 rfl⟩

end BertMt
